import Mathlib

/-!
Shallow embedding of the draw-modem firmware core
(src/beginner/draw-modem/src/main.rs): the frame-validation and
payload-decoding pipeline `process_message` and one iteration of the
receive loop in `idle`.  16-bit machine integers are modelled as `Nat`
(only equality comparisons occur, so no overflow arithmetic is needed);
the fallible pipeline returns an `Option` (Rust `Result<_, ()>`), and the
logging side effects are made explicit as a list of emitted log entries
and, for the loop, a list of performed actions.
-/

namespace DrawModem

/-- The `dw1000::mac::Address` network identity carried in frame headers:
a PAN identifier and a short address, each 16-bit. -/
structure Address where
  pan_id : Nat
  short_addr : Nat
deriving DecidableEq

/-- The frame header fields read by the core: source and destination
identity (other MAC header fields are never consulted). -/
structure Header where
  source : Address
  destination : Address
deriving DecidableEq

/-- A received radio frame: header plus application payload bytes. -/
structure Frame where
  header : Header
  payload : List Nat
deriving DecidableEq

/-- The `dw1000` received `Message`; the core reads only its `frame`
field (the reception timestamp is never consulted). -/
structure Message where
  frame : Frame
deriving DecidableEq

/-- This modem PAN identifier, `const MODEM_PAN: u16 = 0x0386`. -/
def MODEM_PAN : Nat := 0x0386

/-- This modem short address, `const MODEM_ADDR: u16 = 0x0808`. -/
def MODEM_ADDR : Nat := 0x0808

/-- The broadcast sentinel, `const BROADCAST: u16 = 0xFFFF`. -/
def BROADCAST : Nat := 0xFFFF

/-- Modelled from the spec: the `protocol` workspace crate is not under
src/.  Its `RadioMessages` enum has a single variant `SetCell` carrying
an opaque cell-configuration value, modelled here as a `Nat`. -/
inductive RadioMessages where
  | SetCell (cell : Nat)
deriving DecidableEq

/-- Modelled from the spec: the `protocol` crate `CellCommand`, the
decoded cell value enriched with the source and destination short
addresses copied from the frame header. -/
structure CellCommand where
  source : Nat
  dest : Nat
  cell : Nat
deriving DecidableEq

/-- Modelled from the spec: the `protocol` crate outbound event type;
the core constructs only its `SetCell` variant. -/
inductive ModemUartMessages where
  | SetCell (cc : CellCommand)
deriving DecidableEq

/-- Log severity levels of the `nrf52_bin_logger` text channel.
Modelled from the spec: the logger crate is not under src/; its plain
`log` method is the informational level, beside `warn` and `error`. -/
inductive Level where
  | info
  | warn
  | error
deriving DecidableEq

/-- The distinct text messages the core emits on the log channel, one
constructor per distinct source string (arguments model the formatted
values interpolated into the text):
`badBdcstPan` is the source text "bad bdcst pan!",
`badBdcstAddr` is "bad bdcst addr!",
`mismatchPan` is "mismatch pan!",
`thatAintMe` is the fourth rejection message,
`failedToDecode` is "Failed to decode!",
`badMessageFromSrc a` is "^ Bad message from src 0x{a:04X}",
`rxTimeout` is "RX Timeout",
`rxError e` is "RX: {e:?}" with opaque error detail `e`, and
`failedToStartReceive` is "Failed to start receive!". -/
inductive LogMsg where
  | badBdcstPan
  | badBdcstAddr
  | mismatchPan
  | thatAintMe
  | failedToDecode
  | badMessageFromSrc (short_addr : Nat)
  | rxTimeout
  | rxError (detail : Nat)
  | failedToStartReceive
deriving DecidableEq

/-- One emission on the leveled text-log channel. -/
structure LogEntry where
  level : Level
  msg : LogMsg
deriving DecidableEq

/-- The validator and decoder pipeline, `fn process_message` of
src/beginner/draw-modem/src/main.rs lines 160-196.  The `&mut Logger`
side channel becomes the first component of the result (the list of
log entries emitted during the call, in order); the Rust return value
`Result<ModemUartMessages, ()>` becomes the `Option` second component.
The postcard deserializer `from_bytes::<RadioMessages>` is an external
crate and is passed in as the function parameter `from_bytes`. -/
def process_message (from_bytes : List Nat → Option RadioMessages)
    (msg : Message) : List LogEntry × Option ModemUartMessages :=
  if msg.frame.header.source.pan_id = BROADCAST then
    ([⟨Level.error, LogMsg.badBdcstPan⟩], none)
  else if msg.frame.header.source.short_addr = BROADCAST then
    ([⟨Level.error, LogMsg.badBdcstAddr⟩], none)
  else if msg.frame.header.destination.pan_id ≠ msg.frame.header.source.pan_id then
    ([⟨Level.error, LogMsg.mismatchPan⟩], none)
  else if msg.frame.header.destination.short_addr ≠ MODEM_ADDR then
    ([⟨Level.error, LogMsg.thatAintMe⟩], none)
  else
    match from_bytes msg.frame.payload with
    | some (RadioMessages.SetCell sc) =>
        ([], some (ModemUartMessages.SetCell
          ⟨msg.frame.header.source.short_addr,
           msg.frame.header.destination.short_addr,
           sc⟩))
    | none => ([⟨Level.warn, LogMsg.failedToDecode⟩], none)

/-- Outcome of the `DW1000.receive()` begin-receive request at the top
of the loop body: it either yields a receive handle or fails. -/
inductive RxStart where
  | ok
  | failed
deriving DecidableEq

/-- Outcome of the timeout-bounded `rx.wait(&mut buffer)`: a received
message, a timeout, or some other transceiver error (opaque detail). -/
inductive WaitResult where
  | frame (m : Message)
  | timeout
  | other (detail : Nat)
deriving DecidableEq

/-- The observable actions one iteration of the loop performs, in
order: arming the receive timeout (`TIMER.start`), the fixed backoff
delay (`TIMER.delay`), a text-log emission, and a structured-data
publish (`LOGGER.data`). -/
inductive Action where
  | timerStart (ticks : Nat)
  | timerDelay (ticks : Nat)
  | log (e : LogEntry)
  | publish (m : ModemUartMessages)
deriving DecidableEq

/-- Whether an action is a text-log emission. -/
def Action.isLog : Action → Bool
  | Action.log _ => true
  | _ => false

/-- Whether an action is a structured-data publish. -/
def Action.isPublish : Action → Bool
  | Action.publish _ => true
  | _ => false

/-- One iteration of the `loop` in `fn idle` (src lines 117-152), as a
function of the environment responses `start` (begin-receive outcome)
and `w` (wait outcome, consulted only when the start succeeded),
returning the ordered list of actions the iteration performs.  Every
branch of the source ends in `continue` or falls to the loop bottom,
so each iteration returns to the top and the list is finite. -/
def idle_iteration (from_bytes : List Nat → Option RadioMessages)
    (start : RxStart) (w : WaitResult) : List Action :=
  match start with
  | RxStart.failed =>
      [Action.log ⟨Level.warn, LogMsg.failedToStartReceive⟩,
       Action.timerDelay 250000]
  | RxStart.ok =>
      Action.timerStart 1000000 ::
      match w with
      | WaitResult.frame m =>
          match process_message from_bytes m with
          | (logs, some resp) => logs.map Action.log ++ [Action.publish resp]
          | (logs, none) =>
              logs.map Action.log ++
              [Action.log ⟨Level.warn,
                 LogMsg.badMessageFromSrc m.frame.header.source.short_addr⟩]
      | WaitResult.timeout => [Action.log ⟨Level.info, LogMsg.rxTimeout⟩]
      | WaitResult.other e => [Action.log ⟨Level.error, LogMsg.rxError e⟩]

/-- Modelled from the spec: a concrete instance of the fixed,
versionless binary deserialization scheme for `RadioMessages` (the
postcard crate, external), used to instantiate the decoder parameter in
concrete scenarios: the single variant `SetCell` is encoded as variant
tag 0 followed by the opaque cell value; everything else is malformed. -/
def from_bytes : List Nat → Option RadioMessages
  | [0, c] => some (RadioMessages.SetCell c)
  | _ => none

/-- Concrete frame whose source PAN is the broadcast sentinel; it also
fails every later check, exercising first-failure-wins. -/
def msgBadPan : Message := ⟨⟨⟨⟨0xFFFF, 0xFFFF⟩, ⟨0x0001, 0x0002⟩⟩, [0, 1]⟩⟩

/-- Concrete frame whose source short address is the broadcast sentinel
(source PAN valid); it also fails both later checks. -/
def msgBadAddr : Message := ⟨⟨⟨⟨0x0386, 0xFFFF⟩, ⟨0x9999, 0x0003⟩⟩, [0, 1]⟩⟩

/-- Concrete frame with mismatched source and destination PANs (source
fields valid); it also fails the final check. -/
def msgMismatch : Message := ⟨⟨⟨⟨0x0386, 0x0101⟩, ⟨0x0555, 0x0004⟩⟩, [0, 1]⟩⟩

/-- Concrete frame addressed to short address 0x0809, not this modem. -/
def msgNotMe : Message := ⟨⟨⟨⟨0x0386, 0x0101⟩, ⟨0x0386, 0x0809⟩⟩, [0, 1]⟩⟩

/-- The spec scenario frame: source (0x0386, 0x0101), destination
(0x0386, MODEM_ADDR), payload a valid encoding of SetCell 42. -/
def msgScenario : Message := ⟨⟨⟨⟨0x0386, 0x0101⟩, ⟨0x0386, 0x0808⟩⟩, [0, 42]⟩⟩

/-- A correctly addressed frame whose payload decodes to nothing. -/
def msgGarbage : Message := ⟨⟨⟨⟨0x0386, 0x0101⟩, ⟨0x0386, 0x0808⟩⟩, [7]⟩⟩

/-- A frame addressed to this modem on a foreign PAN 0x1234, different
from MODEM_PAN, with a decodable payload. -/
def msgForeignPan : Message := ⟨⟨⟨⟨0x1234, 0x0101⟩, ⟨0x1234, 0x0808⟩⟩, [0, 5]⟩⟩

/-- A frame whose destination short address is the broadcast sentinel
and whose source PAN is also the broadcast sentinel. -/
def msgBdcstBoth : Message := ⟨⟨⟨⟨0xFFFF, 0x0101⟩, ⟨0x0386, 0xFFFF⟩⟩, [0, 1]⟩⟩

/-- A frame with valid source fields, matching PANs, destination short
address the broadcast sentinel. -/
def msgBdcstDest : Message := ⟨⟨⟨⟨0x0386, 0x0101⟩, ⟨0x0386, 0xFFFF⟩⟩, [0, 1]⟩⟩

/-- A frame with valid source fields and destination PAN the broadcast
sentinel. -/
def msgBdcstDestPan : Message := ⟨⟨⟨⟨0x0386, 0x0101⟩, ⟨0xFFFF, 0x0808⟩⟩, [0, 1]⟩⟩

/-- Helper: the pipeline result is always either an event with no log,
or a rejection with exactly one log entry drawn from the five distinct
reason messages. -/
theorem process_message_shape (f : List Nat → Option RadioMessages) (msg : Message) :
    (∃ e, process_message f msg = ([], some e)) ∨
    (∃ entry, process_message f msg = ([entry], none) ∧
      (entry = ⟨Level.error, LogMsg.badBdcstPan⟩ ∨
       entry = ⟨Level.error, LogMsg.badBdcstAddr⟩ ∨
       entry = ⟨Level.error, LogMsg.mismatchPan⟩ ∨
       entry = ⟨Level.error, LogMsg.thatAintMe⟩ ∨
       entry = ⟨Level.warn, LogMsg.failedToDecode⟩)) := by
  unfold process_message
  split
  · exact Or.inr ⟨_, rfl, Or.inl rfl⟩
  split
  · exact Or.inr ⟨_, rfl, Or.inr (Or.inl rfl)⟩
  split
  · exact Or.inr ⟨_, rfl, Or.inr (Or.inr (Or.inl rfl))⟩
  split
  · exact Or.inr ⟨_, rfl, Or.inr (Or.inr (Or.inr (Or.inl rfl)))⟩
  split
  · exact Or.inl ⟨_, rfl⟩
  · exact Or.inr ⟨_, rfl, Or.inr (Or.inr (Or.inr (Or.inr rfl)))⟩

/-- Helper: a successful pipeline result implies all four addressing
checks passed. -/
theorem process_message_success_addressed (f : List Nat → Option RadioMessages)
    (msg : Message) (e : ModemUartMessages)
    (h : (process_message f msg).2 = some e) :
    msg.frame.header.destination.short_addr = MODEM_ADDR ∧
    msg.frame.header.destination.pan_id = msg.frame.header.source.pan_id ∧
    msg.frame.header.source.pan_id ≠ BROADCAST ∧
    msg.frame.header.source.short_addr ≠ BROADCAST := by
  unfold process_message at h
  split at h
  · simp at h
  next h1 =>
  split at h
  · simp at h
  next h2 =>
  split at h
  · simp at h
  next h3 =>
  split at h
  · simp at h
  next h4 =>
  exact ⟨not_ne_iff.mp h4, not_ne_iff.mp h3, h1, h2⟩

/-- Claim C1: the validator applies exactly four checks in this exact
order with the first failure winning, and each rejection consists of
exactly one error-level log entry naming that specific reason: broadcast
source PAN, then broadcast source address, then PAN mismatch, then not
addressed to me; a frame failing several checks is rejected only for the
earliest. -/
theorem c1_validation_order (f : List Nat → Option RadioMessages) (msg : Message) :
    (msg.frame.header.source.pan_id = BROADCAST →
      process_message f msg = ([⟨Level.error, LogMsg.badBdcstPan⟩], none)) ∧
    (msg.frame.header.source.pan_id ≠ BROADCAST →
     msg.frame.header.source.short_addr = BROADCAST →
      process_message f msg = ([⟨Level.error, LogMsg.badBdcstAddr⟩], none)) ∧
    (msg.frame.header.source.pan_id ≠ BROADCAST →
     msg.frame.header.source.short_addr ≠ BROADCAST →
     msg.frame.header.destination.pan_id ≠ msg.frame.header.source.pan_id →
      process_message f msg = ([⟨Level.error, LogMsg.mismatchPan⟩], none)) ∧
    (msg.frame.header.source.pan_id ≠ BROADCAST →
     msg.frame.header.source.short_addr ≠ BROADCAST →
     msg.frame.header.destination.pan_id = msg.frame.header.source.pan_id →
     msg.frame.header.destination.short_addr ≠ MODEM_ADDR →
      process_message f msg = ([⟨Level.error, LogMsg.thatAintMe⟩], none)) := by
  refine ⟨fun h1 => ?_, fun h1 h2 => ?_, fun h1 h2 h3 => ?_, fun h1 h2 h3 h4 => ?_⟩
  · simp [process_message, h1]
  · simp [process_message, h1, h2]
  · simp [process_message, h1, h2, h3]
  · simp [process_message, h1, h2, h3, h4]

/-- Witness for C1 at four concrete frames, each failing every check
from its designated one onward, rejected only for the earliest. -/
theorem c1_validation_order_witness :
    process_message from_bytes msgBadPan = ([⟨Level.error, LogMsg.badBdcstPan⟩], none) ∧
    process_message from_bytes msgBadAddr = ([⟨Level.error, LogMsg.badBdcstAddr⟩], none) ∧
    process_message from_bytes msgMismatch = ([⟨Level.error, LogMsg.mismatchPan⟩], none) ∧
    process_message from_bytes msgNotMe = ([⟨Level.error, LogMsg.thatAintMe⟩], none) :=
  ⟨(c1_validation_order from_bytes msgBadPan).1 rfl,
   (c1_validation_order from_bytes msgBadAddr).2.1 (by decide) rfl,
   (c1_validation_order from_bytes msgMismatch).2.2.1 (by decide) (by decide) (by decide),
   (c1_validation_order from_bytes msgNotMe).2.2.2 (by decide) (by decide) rfl (by decide)⟩

/-- Claim C2: a frame passing all four checks whose payload decodes to
SetCell c yields the event SetCell with source and dest equal to the
header short addresses and cell equal to the decoded value, with no log
emission. -/
theorem c2_setcell_event (f : List Nat → Option RadioMessages) (msg : Message) (c : Nat)
    (h1 : msg.frame.header.source.pan_id ≠ BROADCAST)
    (h2 : msg.frame.header.source.short_addr ≠ BROADCAST)
    (h3 : msg.frame.header.destination.pan_id = msg.frame.header.source.pan_id)
    (h4 : msg.frame.header.destination.short_addr = MODEM_ADDR)
    (h5 : f msg.frame.payload = some (RadioMessages.SetCell c)) :
    process_message f msg =
      ([], some (ModemUartMessages.SetCell
        ⟨msg.frame.header.source.short_addr,
         msg.frame.header.destination.short_addr, c⟩)) := by
  simp [process_message, h1, h2, h3, h4, h5]

/-- Witness for C2, the spec scenario: source (0x0386, 0x0101),
destination (0x0386, 0x0808 = MODEM_ADDR), payload encoding SetCell 42,
yields the event SetCell with source 0x0101, dest 0x0808, cell 42. -/
theorem c2_setcell_event_witness :
    process_message from_bytes msgScenario =
      ([], some (ModemUartMessages.SetCell ⟨0x0101, 0x0808, 42⟩)) :=
  c2_setcell_event from_bytes msgScenario 42 (by decide) (by decide) rfl rfl rfl

/-- Counterexample to C3 as stated: the failure reason is not carried in
the returned value; a broadcast-source-PAN rejection and a PAN-mismatch
rejection are distinct outcomes, yet their returned values are the
identical unit failure, so the caller cannot distinguish them from the
returned value alone. -/
theorem c3_counterexample :
    process_message from_bytes msgBadPan ≠ process_message from_bytes msgMismatch ∧
    (process_message from_bytes msgBadPan).2 = (process_message from_bytes msgMismatch).2 := by
  decide

/-- Amended C3: the pipeline result is either an outbound event (with no
log) or a unit failure; the five distinct failure reasons are carried on
the log side channel, exactly one entry drawn from five distinct
messages, not in the returned value. -/
theorem c3_amended_outcome (f : List Nat → Option RadioMessages) (msg : Message) :
    (∃ e, process_message f msg = ([], some e)) ∨
    (∃ entry, process_message f msg = ([entry], none) ∧
      (entry = ⟨Level.error, LogMsg.badBdcstPan⟩ ∨
       entry = ⟨Level.error, LogMsg.badBdcstAddr⟩ ∨
       entry = ⟨Level.error, LogMsg.mismatchPan⟩ ∨
       entry = ⟨Level.error, LogMsg.thatAintMe⟩ ∨
       entry = ⟨Level.warn, LogMsg.failedToDecode⟩)) :=
  process_message_shape f msg

/-- Counterexample to C4 as stated: a dropped frame does not produce
exactly one diagnostic log line; the iteration that receives the
broadcast-source-PAN frame emits two. -/
theorem c4_counterexample :
    ((idle_iteration from_bytes RxStart.ok (WaitResult.frame msgBadPan)).filter
      Action.isLog).length ≠ 1 := by
  decide

/-- Amended C4: every dropped or rejected frame produces exactly two
diagnostic log lines: one emitted inside the pipeline naming the
specific reason, followed by one warning naming the source short
address. -/
theorem c4_amended_two_log_lines (f : List Nat → Option RadioMessages) (msg : Message)
    (h : (process_message f msg).2 = none) :
    idle_iteration f RxStart.ok (WaitResult.frame msg) =
      Action.timerStart 1000000 ::
        (process_message f msg).1.map Action.log ++
        [Action.log ⟨Level.warn,
           LogMsg.badMessageFromSrc msg.frame.header.source.short_addr⟩] ∧
    (process_message f msg).1.length = 1 := by
  rcases process_message_shape f msg with ⟨e, he⟩ | ⟨entry, he, _⟩
  · rw [he] at h
    simp at h
  · rw [he] at h ⊢
    exact ⟨by simp [idle_iteration, he], rfl⟩

/-- Witness for amended C4 at the broadcast-source-PAN frame: the
iteration performs exactly the armed timeout, the reason log and the
bad-message warning. -/
theorem c4_amended_two_log_lines_witness :
    idle_iteration from_bytes RxStart.ok (WaitResult.frame msgBadPan) =
      [Action.timerStart 1000000,
       Action.log ⟨Level.error, LogMsg.badBdcstPan⟩,
       Action.log ⟨Level.warn, LogMsg.badMessageFromSrc 0xFFFF⟩] ∧
    (process_message from_bytes msgBadPan).1.length = 1 := by
  refine ⟨(c4_amended_two_log_lines from_bytes msgBadPan (by decide)).1.trans ?_, ?_⟩
  · decide
  · exact (c4_amended_two_log_lines from_bytes msgBadPan (by decide)).2

/-- Claim C5: a frame passing all four checks whose payload does not
decode yields exactly one warning-level log entry (failed to decode) and
the unit failure, and the iteration publishes no outbound event. -/
theorem c5_decode_failure (f : List Nat → Option RadioMessages) (msg : Message)
    (h1 : msg.frame.header.source.pan_id ≠ BROADCAST)
    (h2 : msg.frame.header.source.short_addr ≠ BROADCAST)
    (h3 : msg.frame.header.destination.pan_id = msg.frame.header.source.pan_id)
    (h4 : msg.frame.header.destination.short_addr = MODEM_ADDR)
    (h5 : f msg.frame.payload = none) :
    process_message f msg = ([⟨Level.warn, LogMsg.failedToDecode⟩], none) ∧
    (idle_iteration f RxStart.ok (WaitResult.frame msg)).filter Action.isPublish = [] := by
  have hp : process_message f msg = ([⟨Level.warn, LogMsg.failedToDecode⟩], none) := by
    simp [process_message, h1, h2, h3, h4, h5]
  exact ⟨hp, by simp [idle_iteration, hp, Action.isPublish]⟩

/-- Witness for C5 at the correctly addressed frame with undecodable
payload. -/
theorem c5_decode_failure_witness :
    process_message from_bytes msgGarbage =
      ([⟨Level.warn, LogMsg.failedToDecode⟩], none) ∧
    (idle_iteration from_bytes RxStart.ok (WaitResult.frame msgGarbage)).filter
      Action.isPublish = [] :=
  c5_decode_failure from_bytes msgGarbage (by decide) (by decide) rfl rfl rfl

/-- Claim C6: every iteration that reaches the wait arms it with a
timeout of exactly 1000000 timer ticks; the timeout branch performs
exactly the arming and one informational log, with no backoff delay. -/
theorem c6_timeout_no_backoff (f : List Nat → Option RadioMessages) :
    (∀ w, ∃ rest, idle_iteration f RxStart.ok w = Action.timerStart 1000000 :: rest) ∧
    idle_iteration f RxStart.ok WaitResult.timeout =
      [Action.timerStart 1000000, Action.log ⟨Level.info, LogMsg.rxTimeout⟩] ∧
    (∀ t, Action.timerDelay t ∉ idle_iteration f RxStart.ok WaitResult.timeout) := by
  refine ⟨fun w => ⟨_, rfl⟩, rfl, fun t => ?_⟩
  simp [idle_iteration]

/-- Claim C7: when the begin-receive request fails, the iteration is
exactly one warning log followed by the fixed 250000-tick backoff delay,
and a backoff delay occurs on no other branch. -/
theorem c7_start_failure_backoff (f : List Nat → Option RadioMessages) :
    (∀ w, idle_iteration f RxStart.failed w =
      [Action.log ⟨Level.warn, LogMsg.failedToStartReceive⟩,
       Action.timerDelay 250000]) ∧
    (∀ s w t, Action.timerDelay t ∈ idle_iteration f s w →
      s = RxStart.failed ∧ t = 250000) := by
  refine ⟨fun w => rfl, fun s w t h => ?_⟩
  cases s
  · exfalso
    cases w with
    | frame m =>
        rcases hp : process_message f m with ⟨logs, o⟩
        cases o <;> simp [idle_iteration, hp] at h
    | timeout => simp [idle_iteration] at h
    | other e => simp [idle_iteration] at h
  · simp only [idle_iteration, List.mem_cons, List.mem_singleton] at h
    rcases h with h | h | h
    · exact absurd h (by simp)
    · exact ⟨rfl, by injection h⟩
    · exact absurd h (by simp)

/-- Witness for C7 at the failed begin-receive with the delay action
concretely present in the iteration. -/
theorem c7_start_failure_backoff_witness :
    idle_iteration from_bytes RxStart.failed WaitResult.timeout =
      [Action.log ⟨Level.warn, LogMsg.failedToStartReceive⟩,
       Action.timerDelay 250000] ∧
    (RxStart.failed = RxStart.failed ∧ 250000 = 250000) :=
  ⟨(c7_start_failure_backoff from_bytes).1 WaitResult.timeout,
   (c7_start_failure_backoff from_bytes).2 RxStart.failed WaitResult.timeout 250000
     (by decide)⟩

/-- Claim C8: the pipeline is deterministic and stateless: two frames
with identical header fields and identical payload bytes yield identical
outcomes, logs included. -/
theorem c8_deterministic (f : List Nat → Option RadioMessages) (m1 m2 : Message)
    (hs : m1.frame.header.source = m2.frame.header.source)
    (hd : m1.frame.header.destination = m2.frame.header.destination)
    (hp : m1.frame.payload = m2.frame.payload) :
    process_message f m1 = process_message f m2 := by
  obtain ⟨⟨⟨s1, d1⟩, p1⟩⟩ := m1
  obtain ⟨⟨⟨s2, d2⟩, p2⟩⟩ := m2
  cases hs
  cases hd
  cases hp
  rfl

/-- Witness for C8 at the scenario frame compared with itself. -/
theorem c8_deterministic_witness :
    process_message from_bytes msgScenario = process_message from_bytes msgScenario :=
  c8_deterministic from_bytes msgScenario msgScenario rfl rfl rfl

/-- Claim C9: validation never consults MODEM_PAN; a frame whose source
and destination share a PAN different from MODEM_PAN, with non-broadcast
source fields and destination short address MODEM_ADDR, passes
validation and proceeds to payload decoding. -/
theorem c9_foreign_pan_accepted (f : List Nat → Option RadioMessages) (msg : Message)
    (_hforeign : msg.frame.header.source.pan_id ≠ MODEM_PAN)
    (h1 : msg.frame.header.source.pan_id ≠ BROADCAST)
    (h2 : msg.frame.header.source.short_addr ≠ BROADCAST)
    (h3 : msg.frame.header.destination.pan_id = msg.frame.header.source.pan_id)
    (h4 : msg.frame.header.destination.short_addr = MODEM_ADDR) :
    process_message f msg =
      (match f msg.frame.payload with
       | some (RadioMessages.SetCell sc) =>
           ([], some (ModemUartMessages.SetCell
             ⟨msg.frame.header.source.short_addr,
              msg.frame.header.destination.short_addr, sc⟩))
       | none => ([⟨Level.warn, LogMsg.failedToDecode⟩], none)) := by
  simp [process_message, h1, h2, h3, h4]

/-- Witness for C9 at the foreign-PAN frame on PAN 0x1234, accepted and
decoded into an outbound event. -/
theorem c9_foreign_pan_accepted_witness :
    process_message from_bytes msgForeignPan =
      ([], some (ModemUartMessages.SetCell ⟨0x0101, 0x0808, 5⟩)) :=
  (c9_foreign_pan_accepted from_bytes msgForeignPan (by decide) (by decide) (by decide)
    rfl rfl).trans (by decide)

/-- Counterexample to C10 as stated: a frame with broadcast destination
short address is not always rejected at the not-addressed-to-me check;
when its source PAN is also broadcast, the rejection reason is the
broadcast-source-PAN one. -/
theorem c10_counterexample :
    msgBdcstBoth.frame.header.destination.short_addr = BROADCAST ∧
    process_message from_bytes msgBdcstBoth =
      ([⟨Level.error, LogMsg.badBdcstPan⟩], none) ∧
    (⟨Level.error, LogMsg.badBdcstPan⟩ : LogEntry) ≠
      ⟨Level.error, LogMsg.thatAintMe⟩ := by
  decide

/-- Amended C10: broadcast-addressed frames never produce an outbound
event: any frame with broadcast destination short address is rejected,
and any frame with broadcast destination PAN and non-broadcast source
PAN is rejected; when the earlier checks pass, the rejection reason is
not-addressed-to-me, respectively pan-mismatch. -/
theorem c10_amended_broadcast_dest_rejected (f : List Nat → Option RadioMessages)
    (msg : Message) :
    (msg.frame.header.destination.short_addr = BROADCAST →
      (process_message f msg).2 = none) ∧
    (msg.frame.header.destination.pan_id = BROADCAST →
     msg.frame.header.source.pan_id ≠ BROADCAST →
      (process_message f msg).2 = none) ∧
    (msg.frame.header.source.pan_id ≠ BROADCAST →
     msg.frame.header.source.short_addr ≠ BROADCAST →
     msg.frame.header.destination.pan_id = msg.frame.header.source.pan_id →
     msg.frame.header.destination.short_addr = BROADCAST →
      process_message f msg = ([⟨Level.error, LogMsg.thatAintMe⟩], none)) ∧
    (msg.frame.header.source.pan_id ≠ BROADCAST →
     msg.frame.header.source.short_addr ≠ BROADCAST →
     msg.frame.header.destination.pan_id = BROADCAST →
      process_message f msg = ([⟨Level.error, LogMsg.mismatchPan⟩], none)) := by
  refine ⟨fun h => ?_, fun h h1 => ?_, fun h1 h2 h3 h4 => ?_, fun h1 h2 h3 => ?_⟩
  · cases ho : (process_message f msg).2 with
    | none => rfl
    | some e =>
        have hm := (process_message_success_addressed f msg e ho).1
        exact absurd (hm.symm.trans h) (by decide)
  · cases ho : (process_message f msg).2 with
    | none => rfl
    | some e =>
        have hm := (process_message_success_addressed f msg e ho).2.1
        exact absurd (hm.symm.trans h) h1
  · have h4x : msg.frame.header.destination.short_addr ≠ MODEM_ADDR := by
      rw [h4]
      decide
    simp [process_message, h1, h2, h3, h4x]
  · have h4 : msg.frame.header.destination.pan_id ≠ msg.frame.header.source.pan_id := by
      rw [h3]
      exact fun hc => h1 hc.symm
    simp [process_message, h1, h2, h4]

/-- Witness for amended C10 at a frame with broadcast destination short
address and one with broadcast destination PAN. -/
theorem c10_amended_broadcast_dest_rejected_witness :
    (process_message from_bytes msgBdcstDest).2 = none ∧
    (process_message from_bytes msgBdcstDestPan).2 = none ∧
    process_message from_bytes msgBdcstDest =
      ([⟨Level.error, LogMsg.thatAintMe⟩], none) ∧
    process_message from_bytes msgBdcstDestPan =
      ([⟨Level.error, LogMsg.mismatchPan⟩], none) :=
  ⟨(c10_amended_broadcast_dest_rejected from_bytes msgBdcstDest).1 rfl,
   (c10_amended_broadcast_dest_rejected from_bytes msgBdcstDestPan).2.1 rfl (by decide),
   (c10_amended_broadcast_dest_rejected from_bytes msgBdcstDest).2.2.1
     (by decide) (by decide) rfl rfl,
   (c10_amended_broadcast_dest_rejected from_bytes msgBdcstDestPan).2.2.2
     (by decide) (by decide) rfl⟩

end DrawModem
